import Mathlib

/-!
Verification of the uefapi-runner orchestration tool (src/src/main.rs)
against its natural-language specification.

The development shallowly embeds the program: the configuration record,
the TOML-style serialization of that record, the QEMU argument-list
construction, the firmware-file check, a small file-system model for the
staging step, and the linear pipeline of `main` as a function from an
environment of external outcomes to the list of observable events and the
process exit kind.
-/

set_option maxRecDepth 4096

namespace UefapiRunner

/-- The `RunnerConfig` struct from src/src/main.rs, lines 8-21. -/
structure RunnerConfig where
  project_path : String
  auto_build : Bool
  build_cmd : String
  binary_path : String
  efi_name : String
  move_binary : Bool
  qemu_cmd : String
  ovmf_path : String
  stdio_serial : Bool
  log_serial : Bool
  log_path : String
deriving Repr, DecidableEq

/-- The `example()` constructor from src/src/main.rs, lines 23-37
(`example` is a Lean keyword, hence the longer name). -/
def exampleConfig : RunnerConfig where
  project_path := "."
  auto_build := true
  build_cmd := "build --target x86_64-unknown-uefi --release"
  binary_path := "target/x86_64-unknown-uefi/debug/your_bin_name.efi"
  efi_name := "BOOTX64.EFI"
  move_binary := true
  qemu_cmd := "/path_to_qemu/qemu-system-x86_64"
  ovmf_path := "/path_to_ovmf_files"
  stdio_serial := true
  log_serial := true
  log_path := "runner-x86_64-release.log"

/-!
## TOML-style serialization of `RunnerConfig`

The program serializes and parses the configuration with the external
`toml` crate (`toml::to_string_pretty` at line 44, `toml::from_str` at
line 55). The crate is not part of this repository, so we model its
behavior on this flat record: one `key = value` line per field in
declaration order, booleans bare, strings as double-quoted basic strings
with backslash escapes.
-/

/-- TOML basic-string escaping of one character. -/
def escapeChar (c : Char) : List Char :=
  if c = '\\' then ['\\', '\\']
  else if c = '"' then ['\\', '"']
  else if c = '\n' then ['\\', 'n']
  else if c = '\t' then ['\\', 't']
  else if c = '\r' then ['\\', 'r']
  else [c]

/-- Escape every character of a string (as a character list). -/
def escapeList : List Char → List Char
  | [] => []
  | c :: cs => escapeChar c ++ escapeList cs

/-- A double-quoted, escaped TOML basic string. -/
def quoteList (v : List Char) : List Char :=
  '"' :: (escapeList v ++ ['"'])

/-- TOML rendering of a boolean value. -/
def serBool (b : Bool) : String :=
  if b then "true" else "false"

/-- The serialized configuration document, as a character list: one
`key = value` line per field, in the struct's declaration order, with a
trailing newline. -/
def serializeConfigList (c : RunnerConfig) : List Char :=
  "project_path = ".data ++ quoteList c.project_path.data
  ++ "\nauto_build = ".data ++ (serBool c.auto_build).data
  ++ "\nbuild_cmd = ".data ++ quoteList c.build_cmd.data
  ++ "\nbinary_path = ".data ++ quoteList c.binary_path.data
  ++ "\nefi_name = ".data ++ quoteList c.efi_name.data
  ++ "\nmove_binary = ".data ++ (serBool c.move_binary).data
  ++ "\nqemu_cmd = ".data ++ quoteList c.qemu_cmd.data
  ++ "\novmf_path = ".data ++ quoteList c.ovmf_path.data
  ++ "\nstdio_serial = ".data ++ (serBool c.stdio_serial).data
  ++ "\nlog_serial = ".data ++ (serBool c.log_serial).data
  ++ "\nlog_path = ".data ++ quoteList c.log_path.data
  ++ "\n".data

/-- Serialization of a configuration, modelling `toml::to_string_pretty`
on this flat record. -/
def serializeConfig (c : RunnerConfig) : String :=
  String.mk (serializeConfigList c)

/-- Inverse of `escapeChar` on the character following a backslash. -/
def unescapeChar (e : Char) : Option Char :=
  if e = '\\' then some '\\'
  else if e = '"' then some '"'
  else if e = 'n' then some '\n'
  else if e = 't' then some '\t'
  else if e = 'r' then some '\r'
  else none

/-- Strip an expected literal character sequence from the front of the
input, returning the remainder. -/
def stripLit : List Char → List Char → Option (List Char)
  | [], l => some l
  | _ :: _, [] => none
  | p :: ps, c :: cs => if p = c then stripLit ps cs else none

/-- Parse the body of a quoted string up to (and consuming) the closing
quote, decoding backslash escapes; returns the value and the remainder. -/
def parseQuotedBody : List Char → Option (List Char × List Char)
  | [] => none
  | c :: cs =>
    if c = '"' then some ([], cs)
    else if c = '\\' then
      match cs with
      | [] => none
      | e :: cs2 =>
        match unescapeChar e with
        | none => none
        | some d =>
          match parseQuotedBody cs2 with
          | none => none
          | some vr => some (d :: vr.1, vr.2)
    else
      match parseQuotedBody cs with
      | none => none
      | some vr => some (c :: vr.1, vr.2)

/-- Parse a double-quoted basic string from the front of the input. -/
def parseQuoted : List Char → Option (List Char × List Char)
  | [] => none
  | c :: cs => if c = '"' then parseQuotedBody cs else none

/-- Parse a bare boolean literal from the front of the input. -/
def parseBool (l : List Char) : Option (Bool × List Char) :=
  match stripLit "true".data l with
  | some rest => some (true, rest)
  | none =>
    match stripLit "false".data l with
    | some rest => some (false, rest)
    | none => none

/-- Parse a serialized configuration document (character-list form). -/
def parseConfigList (l0 : List Char) : Option RunnerConfig :=
  match stripLit "project_path = ".data l0 with
  | none => none
  | some l1 =>
  match parseQuoted l1 with
  | none => none
  | some r1 =>
  match stripLit "\nauto_build = ".data r1.2 with
  | none => none
  | some l2 =>
  match parseBool l2 with
  | none => none
  | some r2 =>
  match stripLit "\nbuild_cmd = ".data r2.2 with
  | none => none
  | some l3 =>
  match parseQuoted l3 with
  | none => none
  | some r3 =>
  match stripLit "\nbinary_path = ".data r3.2 with
  | none => none
  | some l4 =>
  match parseQuoted l4 with
  | none => none
  | some r4 =>
  match stripLit "\nefi_name = ".data r4.2 with
  | none => none
  | some l5 =>
  match parseQuoted l5 with
  | none => none
  | some r5 =>
  match stripLit "\nmove_binary = ".data r5.2 with
  | none => none
  | some l6 =>
  match parseBool l6 with
  | none => none
  | some r6 =>
  match stripLit "\nqemu_cmd = ".data r6.2 with
  | none => none
  | some l7 =>
  match parseQuoted l7 with
  | none => none
  | some r7 =>
  match stripLit "\novmf_path = ".data r7.2 with
  | none => none
  | some l8 =>
  match parseQuoted l8 with
  | none => none
  | some r8 =>
  match stripLit "\nstdio_serial = ".data r8.2 with
  | none => none
  | some l9 =>
  match parseBool l9 with
  | none => none
  | some r9 =>
  match stripLit "\nlog_serial = ".data r9.2 with
  | none => none
  | some l10 =>
  match parseBool l10 with
  | none => none
  | some r10 =>
  match stripLit "\nlog_path = ".data r10.2 with
  | none => none
  | some l11 =>
  match parseQuoted l11 with
  | none => none
  | some r11 =>
  match stripLit "\n".data r11.2 with
  | none => none
  | some l12 =>
  match l12 with
  | [] => some ⟨String.mk r1.1, r2.1, String.mk r3.1, String.mk r4.1,
                String.mk r5.1, r6.1, String.mk r7.1, String.mk r8.1,
                r9.1, r10.1, String.mk r11.1⟩
  | _ :: _ => none

/-- Parsing of a configuration document, modelling `toml::from_str` on
this flat record. -/
def parseConfig (s : String) : Option RunnerConfig :=
  parseConfigList s.data

theorem stripLit_append (p r : List Char) : stripLit p (p ++ r) = some r := by
  induction p with
  | nil => rfl
  | cons c cs ih => simp [stripLit, ih]

theorem parseQuotedBody_cons (c : Char) (cs : List Char) :
    parseQuotedBody (c :: cs) =
      if c = '"' then some ([], cs)
      else if c = '\\' then
        match cs with
        | [] => none
        | e :: cs2 =>
          match unescapeChar e with
          | none => none
          | some d =>
            match parseQuotedBody cs2 with
            | none => none
            | some vr => some (d :: vr.1, vr.2)
      else
        match parseQuotedBody cs with
        | none => none
        | some vr => some (c :: vr.1, vr.2) := by
  rw [parseQuotedBody.eq_def]

theorem parseQuotedBody_escape (v r : List Char) :
    parseQuotedBody (escapeList v ++ ('"' :: r)) = some (v, r) := by
  induction v with
  | nil => simp [escapeList, parseQuotedBody_cons]
  | cons c cs ih =>
    by_cases h1 : c = '\\'
    · subst h1; simp [escapeList, escapeChar, parseQuotedBody_cons, unescapeChar, ih]
    · by_cases h2 : c = '"'
      · subst h2; simp [escapeList, escapeChar, parseQuotedBody_cons, unescapeChar, ih]
      · by_cases h3 : c = '\n'
        · subst h3; simp [escapeList, escapeChar, parseQuotedBody_cons, unescapeChar, ih]
        · by_cases h4 : c = '\t'
          · subst h4; simp [escapeList, escapeChar, parseQuotedBody_cons, unescapeChar, ih]
          · by_cases h5 : c = '\r'
            · subst h5
              simp [escapeList, escapeChar, parseQuotedBody_cons, unescapeChar, ih]
            · simp [escapeList, escapeChar, h1, h2, h3, h4, h5, parseQuotedBody_cons, ih]

theorem parseQuoted_quote (v r : List Char) :
    parseQuoted (quoteList v ++ r) = some (v, r) := by
  show parseQuoted ('"' :: ((escapeList v ++ ['"']) ++ r)) = some (v, r)
  rw [List.append_assoc]
  simp [parseQuoted, parseQuotedBody_escape]

theorem parseBool_serBool (b : Bool) (r : List Char) :
    parseBool ((serBool b).data ++ r) = some (b, r) := by
  cases b <;> rfl

theorem String_mk_data (s : String) : String.mk s.data = s := rfl

theorem stripLit_self (p : List Char) : stripLit p p = some [] := by
  induction p with
  | nil => rfl
  | cons c cs ih => simp [stripLit, ih]

/-- Helper round-trip fact shared by several developments below:
parsing a serialized configuration recovers it exactly. -/
theorem parse_serialize (c : RunnerConfig) :
    parseConfig (serializeConfig c) = some c := by
  show parseConfigList (serializeConfigList c) = some c
  simp only [serializeConfigList, parseConfigList, List.append_assoc, stripLit_append,
             parseQuoted_quote, parseBool_serBool, stripLit_self, String_mk_data]

/-!
## Firmware paths and the QEMU argument list

Embeds src/src/main.rs lines 90-115.
-/

/-- Name of the required firmware code image (line 92). -/
def ovmfCodeName : String := "OVMF_CODE.fd"

/-- Name of the required firmware variable-store image (line 93). -/
def ovmfVarsName : String := "OVMF_VARS.fd"

/-- Models `PathBuf::join` of a directory and a file name. -/
def joinPath (dir name : String) : String := dir ++ "/" ++ name

/-- The hint diagnostic of line 96; it is built from the two required
firmware file names. -/
def ovmfHint : String :=
  "Hint: This tool needs " ++ ovmfCodeName ++ " and " ++ ovmfVarsName ++ " to run"

/-- The firmware existence check of lines 92-94, over an oracle telling
which paths exist: both required files are looked up directly inside the
(canonicalized) OVMF directory. -/
def firmwareCheck (pathExists : String → Bool) (ovmfDir : String) : Bool :=
  pathExists (joinPath ovmfDir ovmfCodeName) && pathExists (joinPath ovmfDir ovmfVarsName)

/-- The `-chardev` argument string of lines 111-113, including the inline
conditional fragment exactly as written in the source (it re-tests
`stdio_serial`, not `log_serial`). -/
def chardevArg (config : RunnerConfig) : String :=
  (if config.stdio_serial = true then "stdio," else "") ++
    "id=char0,logfile=" ++ config.log_path

/-- The QEMU argument list of lines 99-115, given the canonicalized OVMF
directory and the staging (temp) directory. -/
def qemuArgs (config : RunnerConfig) (ovmfDir workDir : String) : List String :=
  ["-machine", "q35",
   "-drive", "if=pflash,format=raw,file=" ++ joinPath ovmfDir ovmfCodeName,
   "-drive", "if=pflash,format=raw,file=" ++ joinPath ovmfDir ovmfVarsName,
   "-drive", "format=raw,file=fat:rw:" ++ workDir]
  ++ (if config.stdio_serial = true then
        ["-chardev", chardevArg config, "-serial", "chardev:char0"]
      else [])

/-!
## The pipeline of `main`

`main` (lines 39-120) is embedded as a function from an environment of
external outcomes (file reads, process spawns and exits, temp-dir
creation) to the list of observable events it performs plus the way the
process terminates: a plain return from `main` (exit status 0) or a
panic raised by `.expect(..)` (non-zero exit status).
-/

/-- Observable effects of a run, in order. -/
inductive Event where
  | logInfo (msg : String)
  | logWarn (msg : String)
  | logError (msg : String)
  | wroteFile (path content : String)
  | readConfig (path : String)
  | buildSpawned
  | tempDirCreated
  | qemuSpawned (cmd : String) (args : List String)
deriving DecidableEq, Repr

/-- How the process terminates: `normal` is a plain return from `main`
(process exit status 0); `panicked` is an `.expect(..)` panic (non-zero
exit status). -/
inductive ExitKind where
  | normal
  | panicked (msg : String)
deriving DecidableEq, Repr

/-- Process exit status: 0 for a normal return, 101 (Rust's panic status)
otherwise. -/
def exitCode : ExitKind → Nat
  | .normal => 0
  | .panicked _ => 101

/-- Outcome of one pipeline step: halt the whole run, or continue with a
value. -/
inductive PhaseResult (α : Type) where
  | halt (ek : ExitKind)
  | ok (a : α)
deriving DecidableEq, Repr

/-- The external environment of one run: results of every interaction the
program has with the world. -/
structure World where
  /-- Result of `fs::read_to_string` on a given path (line 53); `none` is a failure. -/
  readFile : String → Option String
  /-- whether `fs::write` of the example config succeeds (line 46). -/
  writeOk : Bool
  /-- whether spawning the build command succeeds (line 67). -/
  buildSpawnOk : Bool
  /-- whether waiting on the build command succeeds (line 68). -/
  buildWaitOk : Bool
  /-- whether the build command exits with status zero (line 69). -/
  buildExitSuccess : Bool
  /-- Result of `tempfile::tempdir()` (line 75): the fresh directory, or failure. -/
  tempDir : Option String
  /-- whether `fs::create_dir_all` of EFI/BOOT succeeds (line 78). -/
  createDirOk : Bool
  /-- whether the `fs::rename`/`fs::copy` of the binary succeeds (83/87). -/
  stageOk : Bool
  /-- Result of `Path::canonicalize` (line 90); `none` is a failure. -/
  canonical : String → Option String
  /-- Result of `Path::exists` (line 94). -/
  pathExists : String → Bool
  /-- whether spawning QEMU succeeds (line 116). -/
  qemuSpawnOk : Bool
  /-- whether waiting on QEMU succeeds (line 118). -/
  qemuWaitOk : Bool

/-- The info/warn events emitted right after the config is parsed
(lines 57-60). -/
def configEvents (config : RunnerConfig) : List Event :=
  [Event.logInfo "Config loaded"] ++
  (if (!config.auto_build && config.move_binary) = true then
     [Event.logWarn "Moving binary away but not auto-building, this may cause issues"]
   else [])

/-- The build step (lines 61-74): run only when `auto_build` is set; a
non-zero build exit logs an error and returns from `main` (normal exit);
spawn/wait failures panic. -/
def buildPhase (w : World) (config : RunnerConfig) : List Event × PhaseResult Unit :=
  if config.auto_build = true then
    if w.buildSpawnOk = false then
      ([Event.logInfo "Building project"], .halt (.panicked "Failed to run build command"))
    else if w.buildWaitOk = false then
      ([Event.logInfo "Building project", Event.buildSpawned],
       .halt (.panicked "Failed to wait for build command"))
    else if w.buildExitSuccess = false then
      ([Event.logInfo "Building project", Event.buildSpawned, Event.logError "Build failed"],
       .halt .normal)
    else
      ([Event.logInfo "Building project", Event.buildSpawned, Event.logInfo "Build successful"],
       .ok ())
  else ([], .ok ())

/-- The staged location of the boot binary: `<workDir>/EFI/BOOT/<efi_name>`
(lines 77-80). -/
def stagedPath (workDir efiName : String) : String :=
  workDir ++ "/EFI/BOOT/" ++ efiName

/-- The staging step (lines 75-89): create the temp dir and EFI/BOOT, then
move or copy the binary; every failure panics. On success it returns the
staging root. -/
def stagePhase (w : World) (config : RunnerConfig) : List Event × PhaseResult String :=
  match w.tempDir with
  | none => ([], .halt (.panicked "Failed to create temp dir"))
  | some workDir =>
    if w.createDirOk = false then
      ([Event.tempDirCreated], .halt (.panicked "Failed to create EFI/BOOT directory"))
    else
      if config.move_binary = true then
        if w.stageOk = false then
          ([Event.tempDirCreated,
            Event.logInfo ("Moving binary to " ++ stagedPath workDir config.efi_name)],
           .halt (.panicked "Failed to move binary"))
        else
          ([Event.tempDirCreated,
            Event.logInfo ("Moving binary to " ++ stagedPath workDir config.efi_name)],
           .ok workDir)
      else
        if w.stageOk = false then
          ([Event.tempDirCreated,
            Event.logInfo ("Copying binary to " ++ stagedPath workDir config.efi_name)],
           .halt (.panicked "Failed to copy binary"))
        else
          ([Event.tempDirCreated,
            Event.logInfo ("Copying binary to " ++ stagedPath workDir config.efi_name)],
           .ok workDir)

/-- The firmware verification step (lines 90-98): canonicalize `ovmf_path`
(panic on failure), then check both firmware files exist; if either is
missing, log an error plus the hint naming both files and return from
`main` (normal exit). On success it yields the canonical directory. -/
def firmwarePhase (w : World) (config : RunnerConfig) : List Event × PhaseResult String :=
  match w.canonical config.ovmf_path with
  | none => ([], .halt (.panicked "Failed to canonicalize OVMF path"))
  | some ovmfDir =>
    if firmwareCheck w.pathExists ovmfDir = true then ([], .ok ovmfDir)
    else
      ([Event.logError "OVMF files not found in path", Event.logInfo ovmfHint],
       .halt .normal)

/-- The emulation step (lines 99-119): spawn QEMU with the assembled
argument list (panic on spawn or wait failure) and wait for it; the
guest's own exit status is only logged. -/
def emulatePhase (w : World) (config : RunnerConfig) (ovmfDir workDir : String) :
    List Event × ExitKind :=
  if w.qemuSpawnOk = false then ([], .panicked "Failed to run QEMU")
  else
    if w.qemuWaitOk = false then
      ([Event.qemuSpawned config.qemu_cmd (qemuArgs config ovmfDir workDir),
        Event.logInfo "QEMU started"],
       .panicked "Failed to wait for QEMU")
    else
      ([Event.qemuSpawned config.qemu_cmd (qemuArgs config ovmfDir workDir),
        Event.logInfo "QEMU started", Event.logInfo "QEMU exited"],
       .normal)

/-- The pipeline run on a parsed configuration (lines 57-119). -/
def runPipeline (w : World) (config : RunnerConfig) : List Event × ExitKind :=
  let pre := configEvents config
  let b := buildPhase w config
  match b.2 with
  | .halt ek => (pre ++ b.1, ek)
  | .ok _ =>
    let s := stagePhase w config
    match s.2 with
    | .halt ek => (pre ++ b.1 ++ s.1, ek)
    | .ok workDir =>
      let f := firmwarePhase w config
      match f.2 with
      | .halt ek => (pre ++ b.1 ++ s.1 ++ f.1, ek)
      | .ok ovmfDir =>
        let e := emulatePhase w config ovmfDir workDir
        (pre ++ b.1 ++ s.1 ++ f.1 ++ e.1, e.2)

/-- The fixed well-known configuration file name (lines 46 and 51). -/
def defaultConfigName : String := "uefapi-runner.toml"

/-- Generate mode (lines 42-50): serialize the example config and write it
to the well-known file name; a write failure panics. -/
def genMode (w : World) : List Event × ExitKind :=
  if w.writeOk = true then
    ([Event.wroteFile defaultConfigName (serializeConfig exampleConfig),
      Event.logInfo "Example config written to uefapi-runner.toml"],
     .normal)
  else ([], .panicked "Failed to write example config")

/-- Load mode (lines 51-119): read the config file (panic on failure),
parse it (panic on failure) and run the pipeline. -/
def loadMode (w : World) (configPath : String) : List Event × ExitKind :=
  let pre := [Event.logInfo ("Loading config from " ++ configPath),
              Event.readConfig configPath]
  match w.readFile configPath with
  | none => (pre, .panicked "Failed to read config file")
  | some content =>
    match parseConfig content with
    | none => (pre, .panicked "Failed to parse config file")
    | some config =>
      let r := runPipeline w config
      (pre ++ r.1, r.2)

/-- Embeds `main` (lines 39-120). `args` are the CLI arguments after the program
name, so `args.head?` is `args().nth(1)` of the source. The version
banner's version number is elided. -/
def runMain (w : World) (args : List String) : List Event × ExitKind :=
  let banner := [Event.logInfo "UEFAPI Cargo UEFI Project Runner"]
  if args.head? = some "gen" then
    let g := genMode w
    (banner ++ g.1, g.2)
  else
    let r := loadMode w ((args.head?).getD defaultConfigName)
    (banner ++ r.1, r.2)

/-- The file-writing events of a run, in order (path, content). -/
def writtenFiles (evs : List Event) : List (String × String) :=
  evs.filterMap fun e =>
    match e with
    | .wroteFile p c => some (p, c)
    | _ => none

/-!
## File-system model of the staging step

Lines 80-89 place the artifact at `binary_path` into
`EFI/BOOT/<efi_name>` under the staging root, by `fs::rename` when
`move_binary` is set and by `fs::copy` otherwise. Files are modelled as
an association list from paths to byte contents.
-/

/-- Look up the contents of a file. -/
def fsRead (fs : List (String × List Nat)) (p : String) : Option (List Nat) :=
  match fs with
  | [] => none
  | e :: rest => if e.1 = p then some e.2 else fsRead rest p

/-- Delete a file (no-op when absent). -/
def fsRemove (fs : List (String × List Nat)) (p : String) : List (String × List Nat) :=
  match fs with
  | [] => []
  | e :: rest => if e.1 = p then fsRemove rest p else e :: fsRemove rest p

/-- Create or overwrite a file. -/
def fsWrite (fs : List (String × List Nat)) (p : String) (b : List Nat) :
    List (String × List Nat) :=
  (p, b) :: fsRemove fs p

/-- The staging relocation of lines 80-89: read the artifact at
`binary_path` (a missing source makes the step fail and the program
panic), write its bytes to `EFI/BOOT/<efi_name>` under the staging root,
and, in move mode only, delete the source. -/
def stageBinary (fs : List (String × List Nat)) (config : RunnerConfig)
    (workDir : String) : Option (List (String × List Nat)) :=
  match fsRead fs config.binary_path with
  | none => none
  | some bytes =>
    if config.move_binary = true then
      some (fsWrite (fsRemove fs config.binary_path)
                    (stagedPath workDir config.efi_name) bytes)
    else
      some (fsWrite fs (stagedPath workDir config.efi_name) bytes)

theorem fsRead_write_self (fs : List (String × List Nat)) (p : String) (b : List Nat) :
    fsRead (fsWrite fs p b) p = some b := by
  simp [fsWrite, fsRead]

theorem fsRead_remove_self (fs : List (String × List Nat)) (p : String) :
    fsRead (fsRemove fs p) p = none := by
  induction fs with
  | nil => rfl
  | cons e rest ih =>
    by_cases h : e.1 = p
    · simp [fsRemove, h, ih]
    · simp [fsRemove, fsRead, h, ih]

theorem fsRead_remove_other (fs : List (String × List Nat)) (p q : String)
    (h : q ≠ p) : fsRead (fsRemove fs p) q = fsRead fs q := by
  induction fs with
  | nil => rfl
  | cons e rest ih =>
    by_cases he : e.1 = p
    · have hpq : ¬ p = q := fun hh => h hh.symm
      simp [fsRemove, fsRead, he, hpq, ih]
    · by_cases hq : e.1 = q
      · simp [fsRemove, fsRead, he, hq, h]
      · simp [fsRemove, fsRead, he, hq, ih]

theorem fsRead_write_other (fs : List (String × List Nat)) (p q : String)
    (b : List Nat) (h : q ≠ p) : fsRead (fsWrite fs p b) q = fsRead fs q := by
  have hpq : ¬ p = q := fun hh => h hh.symm
  simp [fsWrite, fsRead, hpq, fsRead_remove_other fs p q h]

/-!
## Helper facts about the pipeline phases
-/

theorem configEvents_no_qemu (config : RunnerConfig) (c : String) (a : List String) :
    Event.qemuSpawned c a ∉ configEvents config := by
  unfold configEvents
  split <;> simp

theorem buildPhase_no_qemu (w : World) (config : RunnerConfig) (c : String)
    (a : List String) : Event.qemuSpawned c a ∉ (buildPhase w config).1 := by
  unfold buildPhase
  split <;> [skip; simp]
  split <;> [simp; skip]
  split <;> [simp; skip]
  split <;> simp

theorem stagePhase_no_qemu (w : World) (config : RunnerConfig) (c : String)
    (a : List String) : Event.qemuSpawned c a ∉ (stagePhase w config).1 := by
  unfold stagePhase
  split
  · simp
  · split
    · simp
    · split <;> split <;> simp

/-!
## Concrete environments used by witnesses
-/

/-- An environment in which every external interaction succeeds and the
config file on disk is the serialized example configuration. -/
def okWorld : World where
  readFile := fun _ => some (serializeConfig exampleConfig)
  writeOk := true
  buildSpawnOk := true
  buildWaitOk := true
  buildExitSuccess := true
  tempDir := some "/tmp/stage"
  createDirOk := true
  stageOk := true
  canonical := fun _ => some "/ovmf"
  pathExists := fun _ => true
  qemuSpawnOk := true
  qemuWaitOk := true

/-- Like `okWorld`, except the build command exits non-zero. -/
def wBuildFail : World := { okWorld with buildExitSuccess := false }

/-- Like `okWorld`, except no path exists (so the firmware files are absent). -/
def wNoOvmf : World := { okWorld with pathExists := fun _ => false }

/-- Like `okWorld`, except reading the config file fails. -/
def wNoConfig : World := { okWorld with readFile := fun _ => none }

/-- An existence oracle under which every path exists. -/
def allPathsExist : String → Bool := fun _ => true

/-- An existence oracle under which exactly the two required firmware
files inside `/fw` exist. -/
def onlyOvmfFiles : String → Bool := fun p =>
  (p == joinPath "/fw" ovmfCodeName) || (p == joinPath "/fw" ovmfVarsName)

/-- A one-file file system holding the artifact to stage. -/
def stagingFs : List (String × List Nat) := [("bin", [1, 2, 3])]

/-- The example configuration with `binary_path` pointing into
`stagingFs`. -/
def cfgStage : RunnerConfig := { exampleConfig with binary_path := "bin" }

/-- The example configuration with `binary_path` pointing into
`stagingFs` and `move_binary` off. -/
def cfgStageCopy : RunnerConfig :=
  { exampleConfig with binary_path := "bin", move_binary := false }

/-- The example configuration with `stdio_serial` on but `log_serial`
off. -/
def cfgNoLogSerial : RunnerConfig := { exampleConfig with log_serial := false }

/-!
## The claims
-/

/-- C8: serializing a `RunnerConfig` to the configuration file format and
parsing the result yields a configuration equal in every field to the
original. -/
theorem config_roundtrip (c : RunnerConfig) :
    parseConfig (serializeConfig c) = some c :=
  parse_serialize c

/-- Witness for C8 at the example configuration. -/
theorem config_roundtrip_witness :
    parseConfig (serializeConfig exampleConfig) = some exampleConfig :=
  config_roundtrip exampleConfig

/-- C9: generation is deterministic — any two generate-mode invocations
(whatever the rest of the environment or argument list) write exactly one
file each, with the same name and byte-identical content, namely the
serialized fixed example configuration. -/
theorem generation_deterministic (w1 w2 : World) (args1 args2 : List String)
    (h1 : args1.head? = some "gen") (h2 : args2.head? = some "gen")
    (hw1 : w1.writeOk = true) (hw2 : w2.writeOk = true) :
    writtenFiles (runMain w1 args1).1 = writtenFiles (runMain w2 args2).1 ∧
    writtenFiles (runMain w1 args1).1 =
      [(defaultConfigName, serializeConfig exampleConfig)] := by
  simp [runMain, genMode, writtenFiles, h1, h2, hw1, hw2]

/-- Witness for C9: two generate-mode runs in different environments. -/
theorem generation_deterministic_witness :
    writtenFiles (runMain okWorld ["gen"]).1 =
      writtenFiles (runMain wNoOvmf ["gen", "extra"]).1 ∧
    writtenFiles (runMain okWorld ["gen"]).1 =
      [(defaultConfigName, serializeConfig exampleConfig)] :=
  generation_deterministic okWorld wNoOvmf ["gen"] ["gen", "extra"] rfl rfl rfl rfl

/-- C7: a first CLI argument equal to "gen" selects generate mode — the
example config is written to the well-known file name and no pipeline
step runs (nothing is read, built, staged or spawned); otherwise the
first argument, or the well-known file name when there is none, is the
path the configuration is read from. -/
theorem mode_selection (w : World) (args : List String) :
    (args.head? = some "gen" →
      (w.writeOk = true →
        Event.wroteFile defaultConfigName (serializeConfig exampleConfig) ∈
          (runMain w args).1 ∧
        (runMain w args).2 = ExitKind.normal) ∧
      (∀ pth, Event.readConfig pth ∉ (runMain w args).1) ∧
      Event.buildSpawned ∉ (runMain w args).1 ∧
      Event.tempDirCreated ∉ (runMain w args).1 ∧
      (∀ c a, Event.qemuSpawned c a ∉ (runMain w args).1)) ∧
    (∀ p, args.head? = some p → p ≠ "gen" →
      Event.readConfig p ∈ (runMain w args).1) ∧
    (args.head? = none → Event.readConfig defaultConfigName ∈ (runMain w args).1) := by
  refine ⟨fun hg => ?_, fun p hp hne => ?_, fun hn => ?_⟩
  · by_cases hw : w.writeOk = true <;>
      simp [runMain, genMode, hg, hw]
  · cases hrf : w.readFile p with
    | none => simp [runMain, loadMode, hp, hne, hrf]
    | some content =>
      cases hpc : parseConfig content with
      | none => simp [runMain, loadMode, hp, hne, hrf, hpc]
      | some cfg => simp [runMain, loadMode, hp, hne, hrf, hpc]
  · cases hrf : w.readFile defaultConfigName with
    | none => simp [runMain, loadMode, hn, hrf]
    | some content =>
      cases hpc : parseConfig content with
      | none => simp [runMain, loadMode, hn, hrf, hpc]
      | some cfg => simp [runMain, loadMode, hn, hrf, hpc]

/-- Witness for C7: a concrete generate-mode run. -/
theorem mode_selection_witness :
    Event.wroteFile defaultConfigName (serializeConfig exampleConfig) ∈
      (runMain okWorld ["gen"]).1 ∧
    (runMain okWorld ["gen"]).2 = ExitKind.normal :=
  ((mode_selection okWorld ["gen"]).1 rfl).1 rfl

/-- C3: when the build runs and exits non-zero, no staging directory is
ever created and QEMU is never spawned — the run stops right after the
build step. -/
theorem build_failure_short_circuit (w : World) (args : List String)
    (p content : String) (cfg : RunnerConfig)
    (hp : args.head? = some p) (hgen : p ≠ "gen")
    (hread : w.readFile p = some content) (hparse : parseConfig content = some cfg)
    (hauto : cfg.auto_build = true) (hspawn : w.buildSpawnOk = true)
    (hwait : w.buildWaitOk = true) (hfail : w.buildExitSuccess = false) :
    Event.tempDirCreated ∉ (runMain w args).1 ∧
    (∀ c a, Event.qemuSpawned c a ∉ (runMain w args).1) := by
  simp [runMain, loadMode, runPipeline, buildPhase, configEvents, hp, hgen, hread,
        hparse, hauto, hspawn, hwait, hfail]

/-- Witness for C3: a concrete run whose build exits non-zero. -/
theorem build_failure_short_circuit_witness :
    Event.tempDirCreated ∉ (runMain wBuildFail [defaultConfigName]).1 ∧
    (∀ c a, Event.qemuSpawned c a ∉ (runMain wBuildFail [defaultConfigName]).1) :=
  build_failure_short_circuit wBuildFail [defaultConfigName] defaultConfigName
    (serializeConfig exampleConfig) exampleConfig rfl (by decide) rfl
    (parse_serialize exampleConfig) rfl rfl rfl rfl

/-- C4: when either required firmware file is missing, QEMU is never
spawned, an error is logged, and the emitted hint names both expected
firmware file names. -/
theorem firmware_gate (w : World) (args : List String) (p content : String)
    (cfg : RunnerConfig) (wd ovmfDir : String)
    (hp : args.head? = some p) (hgen : p ≠ "gen")
    (hread : w.readFile p = some content) (hparse : parseConfig content = some cfg)
    (hb : (buildPhase w cfg).2 = PhaseResult.ok ())
    (hs : (stagePhase w cfg).2 = PhaseResult.ok wd)
    (hc : w.canonical cfg.ovmf_path = some ovmfDir)
    (hmiss : firmwareCheck w.pathExists ovmfDir = false) :
    (∀ c a, Event.qemuSpawned c a ∉ (runMain w args).1) ∧
    Event.logError "OVMF files not found in path" ∈ (runMain w args).1 ∧
    Event.logInfo ovmfHint ∈ (runMain w args).1 ∧
    (∃ s1 s2 s3, ovmfHint = s1 ++ (ovmfCodeName ++ (s2 ++ (ovmfVarsName ++ s3)))) := by
  refine ⟨fun c a => ?_, ?_, ?_, ⟨"Hint: This tool needs ", " and ", " to run", ?_⟩⟩
  · simp [runMain, loadMode, runPipeline, firmwarePhase, hp, hgen, hread, hparse,
          hb, hs, hc, hmiss, configEvents_no_qemu cfg c a, buildPhase_no_qemu w cfg c a,
          stagePhase_no_qemu w cfg c a]
  · simp [runMain, loadMode, runPipeline, firmwarePhase, hp, hgen, hread, hparse,
          hb, hs, hc, hmiss]
  · simp [runMain, loadMode, runPipeline, firmwarePhase, hp, hgen, hread, hparse,
          hb, hs, hc, hmiss]
  · rfl

/-- Witness for C4: a concrete run in which no firmware file exists. -/
theorem firmware_gate_witness :
    (∀ c a, Event.qemuSpawned c a ∉ (runMain wNoOvmf [defaultConfigName]).1) ∧
    Event.logError "OVMF files not found in path" ∈ (runMain wNoOvmf [defaultConfigName]).1 ∧
    Event.logInfo ovmfHint ∈ (runMain wNoOvmf [defaultConfigName]).1 ∧
    (∃ s1 s2 s3, ovmfHint = s1 ++ (ovmfCodeName ++ (s2 ++ (ovmfVarsName ++ s3)))) :=
  firmware_gate wNoOvmf [defaultConfigName] defaultConfigName
    (serializeConfig exampleConfig) exampleConfig "/tmp/stage" "/ovmf"
    rfl (by decide) rfl (parse_serialize exampleConfig) rfl rfl rfl rfl

/-- C5: the QEMU argument list is, in order: the machine-type selector,
exactly three drive specifications (firmware code image raw, firmware
variable-store image raw, staging directory as writable virtual FAT),
then — only when `stdio_serial` is set — a chardev argument followed by a
serial argument; with `stdio_serial` unset nothing follows the drives. -/
theorem qemu_args_order (config : RunnerConfig) (ovmfDir workDir : String) :
    qemuArgs config ovmfDir workDir =
      ["-machine", "q35",
       "-drive", "if=pflash,format=raw,file=" ++ joinPath ovmfDir ovmfCodeName,
       "-drive", "if=pflash,format=raw,file=" ++ joinPath ovmfDir ovmfVarsName,
       "-drive", "format=raw,file=fat:rw:" ++ workDir]
      ++ (if config.stdio_serial = true then
            ["-chardev", chardevArg config, "-serial", "chardev:char0"]
          else []) ∧
    (qemuArgs config ovmfDir workDir).take 2 = ["-machine", "q35"] ∧
    (config.stdio_serial = false → (qemuArgs config ovmfDir workDir).length = 8) ∧
    (config.stdio_serial = true →
      (qemuArgs config ovmfDir workDir).length = 12 ∧
      (qemuArgs config ovmfDir workDir).drop 8 =
        ["-chardev", chardevArg config, "-serial", "chardev:char0"]) := by
  by_cases h : config.stdio_serial = true <;> simp [qemuArgs, h]

/-- Witness for C5 at the example configuration (serial enabled). -/
theorem qemu_args_order_witness :
    (qemuArgs exampleConfig "/fw" "/stage").length = 12 ∧
    (qemuArgs exampleConfig "/fw" "/stage").drop 8 =
      ["-chardev", chardevArg exampleConfig, "-serial", "chardev:char0"] :=
  (qemu_args_order exampleConfig "/fw" "/stage").2.2.2 rfl

/-- C2 (code behavior at the claim's failing input): with `stdio_serial`
on and `log_serial` off, the chardev argument passed to QEMU still
carries `logfile=<log_path>` — `log_serial` is never consulted. -/
theorem log_serial_ignored :
    cfgNoLogSerial.stdio_serial = true ∧
    cfgNoLogSerial.log_serial = false ∧
    chardevArg cfgNoLogSerial =
      "stdio,id=char0,logfile=" ++ cfgNoLogSerial.log_path ∧
    chardevArg cfgNoLogSerial ∈ qemuArgs cfgNoLogSerial "/fw" "/stage" := by
  refine ⟨rfl, rfl, ?_, ?_⟩
  · decide
  · simp [qemuArgs, cfgNoLogSerial, exampleConfig]

/-- C10: the firmware check consults the existence oracle at exactly the
two paths obtained by joining `OVMF_CODE.fd` and `OVMF_VARS.fd` to the
canonicalized OVMF directory: its outcome is unchanged by any oracle
agreeing at those two paths, and it passes exactly when both exist. -/
theorem firmware_files_exact (e1 e2 : String → Bool) (ovmfDir : String)
    (hc : e1 (joinPath ovmfDir ovmfCodeName) = e2 (joinPath ovmfDir ovmfCodeName))
    (hv : e1 (joinPath ovmfDir ovmfVarsName) = e2 (joinPath ovmfDir ovmfVarsName)) :
    firmwareCheck e1 ovmfDir = firmwareCheck e2 ovmfDir ∧
    (firmwareCheck e1 ovmfDir = true ↔
      e1 (joinPath ovmfDir ovmfCodeName) = true ∧
      e1 (joinPath ovmfDir ovmfVarsName) = true) := by
  constructor
  · simp [firmwareCheck, hc, hv]
  · simp [firmwareCheck]

/-- Witness for C10: an all-paths oracle against one that only has the
two firmware files. -/
theorem firmware_files_exact_witness :
    firmwareCheck allPathsExist "/fw" = firmwareCheck onlyOvmfFiles "/fw" ∧
    (firmwareCheck allPathsExist "/fw" = true ↔
      allPathsExist (joinPath "/fw" ovmfCodeName) = true ∧
      allPathsExist (joinPath "/fw" ovmfVarsName) = true) :=
  firmware_files_exact allPathsExist onlyOvmfFiles "/fw" (by decide) (by decide)

/-- C6: staging places the artifact's bytes at `EFI/BOOT/<efi_name>`
under the staging root; with `move_binary` on the source file is gone
afterwards, with it off the source survives with bytes equal to the
staged copy. (The staging root is a fresh temp directory, so the source
is a different path from the staged target.) -/
theorem staging_move_copy (fs : List (String × List Nat)) (config : RunnerConfig)
    (workDir : String) (bytes : List Nat)
    (hsrc : fsRead fs config.binary_path = some bytes)
    (hne : config.binary_path ≠ stagedPath workDir config.efi_name) :
    ∃ fs2, stageBinary fs config workDir = some fs2 ∧
      fsRead fs2 (stagedPath workDir config.efi_name) = some bytes ∧
      (config.move_binary = true → fsRead fs2 config.binary_path = none) ∧
      (config.move_binary = false → fsRead fs2 config.binary_path = some bytes) := by
  by_cases hm : config.move_binary = true
  · refine ⟨fsWrite (fsRemove fs config.binary_path)
        (stagedPath workDir config.efi_name) bytes,
      by simp [stageBinary, hsrc, hm], fsRead_write_self _ _ _,
      fun _ => ?_, fun hf => ?_⟩
    · rw [fsRead_write_other _ _ _ _ hne]
      exact fsRead_remove_self fs config.binary_path
    · rw [hm] at hf; cases hf
  · have hm' : config.move_binary = false := by
      cases hmv : config.move_binary
      · rfl
      · exact absurd hmv hm
    refine ⟨fsWrite fs (stagedPath workDir config.efi_name) bytes,
      by simp [stageBinary, hsrc, hm'], fsRead_write_self _ _ _,
      fun hf => ?_, fun _ => ?_⟩
    · rw [hm'] at hf; cases hf
    · rw [fsRead_write_other _ _ _ _ hne]
      exact hsrc

/-- Witness for C6: staging a three-byte artifact in move mode. -/
theorem staging_move_copy_witness :
    fsRead stagingFs cfgStage.binary_path = some [1, 2, 3] ∧
    cfgStage.binary_path ≠ stagedPath "/stage" cfgStage.efi_name ∧
    (∃ fs2, stageBinary stagingFs cfgStage "/stage" = some fs2 ∧
      fsRead fs2 (stagedPath "/stage" cfgStage.efi_name) = some [1, 2, 3] ∧
      (cfgStage.move_binary = true → fsRead fs2 cfgStage.binary_path = none) ∧
      (cfgStage.move_binary = false → fsRead fs2 cfgStage.binary_path = some [1, 2, 3])) :=
  ⟨by decide, by decide,
   staging_move_copy stagingFs cfgStage "/stage" [1, 2, 3] (by decide) (by decide)⟩

/-- C1 (amended): every failing run emits a diagnostic first, but the
exit status depends on the failure: a non-zero build exit or missing
firmware files log an error and then return from `main` normally, so the
process exit status is 0; failures signalled through `.expect` (such as
an unreadable config file) panic, exiting non-zero. -/
theorem failing_runs_exit_behavior (w : World) (args : List String) (p : String)
    (hp : args.head? = some p) (hgen : p ≠ "gen") :
    (∀ content cfg, w.readFile p = some content → parseConfig content = some cfg →
      cfg.auto_build = true → w.buildSpawnOk = true → w.buildWaitOk = true →
      w.buildExitSuccess = false →
      Event.logError "Build failed" ∈ (runMain w args).1 ∧
      exitCode (runMain w args).2 = 0) ∧
    (∀ content cfg wd ovmfDir, w.readFile p = some content →
      parseConfig content = some cfg →
      (buildPhase w cfg).2 = PhaseResult.ok () →
      (stagePhase w cfg).2 = PhaseResult.ok wd →
      w.canonical cfg.ovmf_path = some ovmfDir →
      firmwareCheck w.pathExists ovmfDir = false →
      Event.logError "OVMF files not found in path" ∈ (runMain w args).1 ∧
      exitCode (runMain w args).2 = 0) ∧
    (w.readFile p = none → exitCode (runMain w args).2 ≠ 0) := by
  refine ⟨fun content cfg hread hparse hauto hspawn hwait hfail => ?_,
          fun content cfg wd ovmfDir hread hparse hb hs hc hmiss => ?_,
          fun hnone => ?_⟩
  · simp [runMain, loadMode, runPipeline, buildPhase, configEvents, exitCode, hp,
          hgen, hread, hparse, hauto, hspawn, hwait, hfail]
  · simp [runMain, loadMode, runPipeline, firmwarePhase, exitCode, hp, hgen, hread,
          hparse, hb, hs, hc, hmiss]
  · simp [runMain, loadMode, exitCode, hp, hgen, hnone]

/-- Witness for C1's amended statement: a concrete failing build run
exits with status 0 after logging the error. -/
theorem failing_runs_exit_behavior_witness :
    Event.logError "Build failed" ∈ (runMain wBuildFail [defaultConfigName]).1 ∧
    exitCode (runMain wBuildFail [defaultConfigName]).2 = 0 :=
  (failing_runs_exit_behavior wBuildFail [defaultConfigName] defaultConfigName
      rfl (by decide)).1
    (serializeConfig exampleConfig) exampleConfig rfl (parse_serialize exampleConfig)
    rfl rfl rfl rfl

/-- C1 counterexample to the claim as stated: a run failing at the build
step (the diagnostic is emitted) terminates with exit status 0, not a
non-zero status. -/
theorem exit_status_counterexample :
    Event.logError "Build failed" ∈ (runMain wBuildFail [defaultConfigName]).1 ∧
    (runMain wBuildFail [defaultConfigName]).2 = ExitKind.normal ∧
    exitCode (runMain wBuildFail [defaultConfigName]).2 = 0 := by
  refine ⟨?_, ?_, ?_⟩ <;>
    simp [runMain, loadMode, runPipeline, buildPhase, configEvents, exitCode,
          wBuildFail, okWorld, exampleConfig, defaultConfigName, parse_serialize]

end UefapiRunner
